import Mathlib

/-!
Shallow embedding of `src/gcal.py` from the gcal-mcp repository.

The module exposes Google Calendar REST endpoints as tool functions.  Every
tool builds a path, an optional query-parameter dict and an optional JSON
body, and delegates to the shared helper `_request`, which serializes the
query string (dropping `None` values, url-encoding the rest with
`urllib.parse.urlencode`), dispatches the request, and normalizes the
dispatch response into a `GCalResult {success, data, error}`.

Modelling conventions:
* Python `dict[str, Any]` query parameters become `List (String × Option String)`
  (every value the tools ever insert is a string; `none` models Python `None`).
  Python never assigns the same key twice in this module, so insertion-ordered
  association lists are a faithful dict model.
* JSON bodies become the inductive `JsonVal`; a Python `None` body is `none`.
* `urllib.parse.urlencode` (with its default `quote_via=quote_plus`) is
  modelled byte-for-byte: UTF-8 encode, keep `[A-Za-z0-9_.~-]`, space → `+`,
  every other byte percent-escaped with uppercase hex.
* The dispatch capability is opaque: `_request` takes the `DispatchResponse`
  it would return as an explicit argument and returns both the `HttpRequest`
  it built and the normalized `GCalResult`.
* Python truthiness tests on optional strings (`if time_min:`) are
  `pyTruthyStr`; identity tests (`if x is not None:`) are `Option` matches.
* `str(b).lower()` on a Python bool is `pyLower (pyStr b)`.
-/

/-- JSON-like values (Python `Any` as used by this module: strings, ints,
bools, lists, dicts).  Python `None` is represented by `Option.none` at use
sites, never inside `JsonVal`. -/
inductive JsonVal where
  | str (s : String)
  | num (n : Int)
  | bool (b : Bool)
  | arr (elems : List JsonVal)
  | obj (fields : List (String × JsonVal))

/-- The `HttpMethod` enum from `dedalus_mcp`. -/
inductive HttpMethod where
  | GET
  | POST
  | PUT
  | PATCH
  | DELETE
deriving DecidableEq, Repr

/-- `HttpRequest(method=..., path=..., body=...)` from `dedalus_mcp`; the
query string is already baked into `path` by `_request`. -/
structure HttpRequest where
  method : HttpMethod
  path : String
  body : Option JsonVal

/-- The `response.response` part of a dispatch response: carries the HTTP
response body (which may itself be `None`). -/
structure HttpResponseBody where
  body : Option JsonVal

/-- The `response.error` object of a failed dispatch response. -/
structure DispatchError where
  message : String

/-- What `ctx.dispatch` returns: `success` flag, a response wrapper (read on
success) and an optional error object (read on failure). -/
structure DispatchResponse where
  success : Bool
  response : HttpResponseBody
  error : Option DispatchError

/-- `class GCalResult(BaseModel): success: bool; data: Any = None;
error: str | None = None`. -/
structure GCalResult where
  success : Bool
  data : Option JsonVal := none
  error : Option String := none

/-- Python `str(b)` for a bool: `"True"` / `"False"`. -/
def pyStr (b : Bool) : String :=
  if b then "True" else "False"

/-- Python `s.lower()` restricted to ASCII, which is all this module feeds
it (`"True"`/`"False"`). -/
def pyLower (s : String) : String :=
  String.mk (s.data.map Char.toLower)

/-- Python truthiness of an optional string: `None` and `""` are falsy. -/
def pyTruthyStr : Option String → Bool
  | none => false
  | some s => !s.isEmpty

/-- UTF-8 byte sequence of a character (what Python's `str.encode("utf-8")`
produces per code point). -/
def utf8Bytes (c : Char) : List Nat :=
  let n := c.toNat
  if n < 0x80 then [n]
  else if n < 0x800 then
    [0xC0 ||| (n >>> 6), 0x80 ||| (n &&& 0x3F)]
  else if n < 0x10000 then
    [0xE0 ||| (n >>> 12), 0x80 ||| ((n >>> 6) &&& 0x3F), 0x80 ||| (n &&& 0x3F)]
  else
    [0xF0 ||| (n >>> 18), 0x80 ||| ((n >>> 12) &&& 0x3F),
     0x80 ||| ((n >>> 6) &&& 0x3F), 0x80 ||| (n &&& 0x3F)]

/-- Uppercase hex digit, as Python's `quote` emits. -/
def hexDigit (n : Nat) : Char :=
  if n < 10 then Char.ofNat (48 + n) else Char.ofNat (55 + n)

/-- Bytes `urllib.parse.quote` never escapes (with the default `safe=''`
used by `urlencode`): ASCII letters, digits, `_`, `.`, `-`, `~`. -/
def alwaysSafeByte (b : Nat) : Bool :=
  (65 ≤ b && b ≤ 90) || (97 ≤ b && b ≤ 122) || (48 ≤ b && b ≤ 57) ||
  b == 95 || b == 46 || b == 45 || b == 126

/-- `quote_plus` on one byte: space → `+`, safe bytes kept, the rest
percent-escaped. -/
def quotePlusByte (b : Nat) : String :=
  if b == 32 then "+"
  else if alwaysSafeByte b then String.singleton (Char.ofNat b)
  else String.mk ['%', hexDigit (b / 16), hexDigit (b % 16)]

/-- `urllib.parse.quote_plus` on a string (UTF-8 encode, then quote each
byte). -/
def quotePlus (s : String) : String :=
  String.join (((s.data.map utf8Bytes).flatten).map quotePlusByte)

/-- The dict comprehension `{k: v for k, v in params.items() if v is not None}`
from `_request`. -/
def filterNone : List (String × Option String) → List (String × String)
  | [] => []
  | (k, some v) :: rest => (k, v) :: filterNone rest
  | (_, none) :: rest => filterNone rest

/-- `urllib.parse.urlencode` on a dict of strings: `quote_plus(k)=quote_plus(v)`
pairs joined by `&`, in insertion order. -/
def urlencode (ps : List (String × String)) : String :=
  String.intercalate "&" (ps.map fun kv => quotePlus kv.1 ++ "=" ++ quotePlus kv.2)

/-- The path `_request` puts into the `HttpRequest`: if `params` is truthy
(present and non-empty) and the encoded query string of its non-`None`
entries is non-empty, append it after `?`; otherwise the path is unchanged. -/
def buildPath (path : String) (params : Option (List (String × Option String))) : String :=
  match params with
  | none => path
  | some ps =>
    if ps.isEmpty then path
    else
      let qs := urlencode (filterNone ps)
      if qs.isEmpty then path else path ++ "?" ++ qs

/-- The `HttpRequest(method=method, path=path, body=body)` constructed by
`_request` after query-string processing. -/
def buildRequest (method : HttpMethod) (path : String)
    (params : Option (List (String × Option String))) (body : Option JsonVal) :
    HttpRequest :=
  { method := method, path := buildPath path params, body := body }

/-- `async def _request(method, path, params=None, body=None)`: builds the
request, dispatches it (the dispatch response is passed in explicitly), and
normalizes the response into a `GCalResult`. -/
def _request (method : HttpMethod) (path : String)
    (params : Option (List (String × Option String))) (body : Option JsonVal)
    (response : DispatchResponse) : HttpRequest × GCalResult :=
  let req := buildRequest method path params body
  let result : GCalResult :=
    if response.success then
      { success := true, data := response.response.body }
    else
      { success := false,
        error := some (match response.error with
          | some e => e.message
          | none => "Request failed") }
  (req, result)

/-- `max(1, min(2500, max_results))` — the clamp shared by the three
list-style operations. -/
def clampMaxResults (n : Int) : Int :=
  max 1 (min 2500 n)

/-- Query parameters built by `gcal_list_events`: `maxResults` (clamped,
stringified) and `singleEvents` always; `timeMin`/`timeMax` when truthy;
`orderBy` only when `single_events` is true. -/
def gcal_list_events_params (time_min time_max : Option String) (max_results : Int)
    (single_events : Bool) (order_by : String) : List (String × Option String) :=
  [("maxResults", some (toString (clampMaxResults max_results))),
   ("singleEvents", some (pyLower (pyStr single_events)))]
    ++ (if pyTruthyStr time_min then [("timeMin", time_min)] else [])
    ++ (if pyTruthyStr time_max then [("timeMax", time_max)] else [])
    ++ (if single_events then [("orderBy", some order_by)] else [])

/-- The full request built by `gcal_list_events`: a GET against
`/calendars/{calendar_id}/events` with the params above. -/
def gcal_list_events_request (calendar_id : String) (time_min time_max : Option String)
    (max_results : Int) (single_events : Bool) (order_by : String) : HttpRequest :=
  buildRequest HttpMethod.GET ("/calendars/" ++ calendar_id ++ "/events")
    (some (gcal_list_events_params time_min time_max max_results single_events order_by))
    none

/-- Query parameters built by `gcal_search_events`. -/
def gcal_search_events_params (query : String) (time_min time_max : Option String)
    (max_results : Int) : List (String × Option String) :=
  [("q", some query),
   ("maxResults", some (toString (clampMaxResults max_results))),
   ("singleEvents", some "true"),
   ("orderBy", some "startTime")]
    ++ (if pyTruthyStr time_min then [("timeMin", time_min)] else [])
    ++ (if pyTruthyStr time_max then [("timeMax", time_max)] else [])

/-- Query parameters built by `gcal_get_event_instances`. -/
def gcal_get_event_instances_params (time_min time_max : Option String)
    (max_results : Int) : List (String × Option String) :=
  [("maxResults", some (toString (clampMaxResults max_results)))]
    ++ (if pyTruthyStr time_min then [("timeMin", time_min)] else [])
    ++ (if pyTruthyStr time_max then [("timeMax", time_max)] else [])

/-- Query parameters built by `gcal_create_event`: `sendUpdates` and
`supportsAttachments` only when supplied (tested with `is not None`). -/
def gcal_create_event_params (send_updates : Option String)
    (supports_attachments : Option Bool) : List (String × Option String) :=
  (match send_updates with
    | some s => [("sendUpdates", some s)]
    | none => [])
    ++ (match supports_attachments with
    | some b => [("supportsAttachments", some (pyLower (pyStr b)))]
    | none => [])

/-- The full request built by `gcal_create_event`: POST against
`/calendars/{calendar_id}/events` with the params above and the event body. -/
def gcal_create_event_request (calendar_id : String) (event : JsonVal)
    (send_updates : Option String) (supports_attachments : Option Bool) : HttpRequest :=
  buildRequest HttpMethod.POST ("/calendars/" ++ calendar_id ++ "/events")
    (some (gcal_create_event_params send_updates supports_attachments))
    (some event)

/-- Query parameters built by `gcal_import_event`. -/
def gcal_import_event_params (supports_attachments : Option Bool) :
    List (String × Option String) :=
  match supports_attachments with
  | some b => [("supportsAttachments", some (pyLower (pyStr b)))]
  | none => []

/-- Query parameters built by `gcal_events_watch` (all three optionals are
tested with `is not None`). -/
def gcal_events_watch_params (time_min time_max : Option String)
    (single_events : Option Bool) : List (String × Option String) :=
  (match time_min with
    | some s => [("timeMin", some s)]
    | none => [])
    ++ (match time_max with
    | some s => [("timeMax", some s)]
    | none => [])
    ++ (match single_events with
    | some b => [("singleEvents", some (pyLower (pyStr b)))]
    | none => [])

/-- JSON body built by `gcal_create_calendar`: `summary` always, the three
optionals only when not `None`. -/
def gcal_create_calendar_body (summary : String)
    (description time_zone location : Option String) : List (String × JsonVal) :=
  [("summary", JsonVal.str summary)]
    ++ (match description with
    | some d => [("description", JsonVal.str d)]
    | none => [])
    ++ (match time_zone with
    | some t => [("timeZone", JsonVal.str t)]
    | none => [])
    ++ (match location with
    | some l => [("location", JsonVal.str l)]
    | none => [])

/-- JSON body built by `gcal_get_freebusy`: `calendar_ids` defaults to
`["primary"]` when `None`; `timeZone` appended only when truthy. -/
def gcal_get_freebusy_body (time_min time_max : String)
    (calendar_ids : Option (List String)) (time_zone : Option String) :
    List (String × JsonVal) :=
  let ids := calendar_ids.getD ["primary"]
  [("timeMin", JsonVal.str time_min),
   ("timeMax", JsonVal.str time_max),
   ("items", JsonVal.arr (ids.map fun cal_id => JsonVal.obj [("id", JsonVal.str cal_id)]))]
    ++ (if pyTruthyStr time_zone then
          [("timeZone", JsonVal.str (time_zone.getD ""))]
        else [])

/-- The full request built by `gcal_get_freebusy`: POST `/freeBusy` with the
body above and no query parameters. -/
def gcal_get_freebusy_request (time_min time_max : String)
    (calendar_ids : Option (List String)) (time_zone : Option String) : HttpRequest :=
  buildRequest HttpMethod.POST "/freeBusy" none
    (some (JsonVal.obj (gcal_get_freebusy_body time_min time_max calendar_ids time_zone)))

/-- First-match association-list lookup: the semantics of reading a key from
the parameter dict (keys are never assigned twice in this module). -/
def lookupKey {α : Type} (k : String) : List (String × α) → Option α
  | [] => none
  | (k', v) :: rest => if k' = k then some v else lookupKey k rest

/-- A sample successful response body, used to instantiate theorems with
hypotheses at concrete inputs. -/
def sampleBody : JsonVal :=
  JsonVal.obj [("kind", JsonVal.str "calendar#events")]

/-- A sample successful dispatch response. -/
def sampleOk : DispatchResponse :=
  { success := true, response := { body := some sampleBody }, error := none }

/-- A sample failed dispatch response with no error object. -/
def sampleFailNoErr : DispatchResponse :=
  { success := false, response := { body := none }, error := none }

/-- Encoding an empty dict yields the empty query string. -/
theorem urlencode_nil : urlencode [] = "" := rfl

/-- Filtering on `isSome` commutes with `filterNone`: `filterNone` only ever
sees the non-null entries. -/
theorem filterNone_filter (ps : List (String × Option String)) :
    filterNone (ps.filter fun kv => kv.2.isSome) = filterNone ps := by
  induction ps with
  | nil => rfl
  | cons kv rest ih =>
    obtain ⟨k, v⟩ := kv
    cases v <;> simp [filterNone, List.filter, ih]

/-- C1: whenever the dispatch capability reports success, `_request` returns
`GCalResult` with `success = true` and `data` equal to the response body
verbatim, with no transformation applied. -/
theorem request_success_verbatim (method : HttpMethod) (path : String)
    (params : Option (List (String × Option String))) (body : Option JsonVal)
    (response : DispatchResponse) (h : response.success = true) :
    ((_request method path params body response).2).success = true ∧
    ((_request method path params body response).2).data = response.response.body := by
  simp [_request, h]

/-- Witness for C1 at a concrete successful response. -/
theorem request_success_verbatim_witness :
    sampleOk.success = true ∧
    ((_request HttpMethod.GET "/colors" none none sampleOk).2).success = true ∧
    ((_request HttpMethod.GET "/colors" none none sampleOk).2).data = some sampleBody :=
  ⟨rfl,
   (request_success_verbatim HttpMethod.GET "/colors" none none sampleOk rfl).1,
   (request_success_verbatim HttpMethod.GET "/colors" none none sampleOk rfl).2⟩

/-- C3: null-valued entries never influence the constructed query string
(the built path only depends on the non-null entries), and when no non-null
entries remain no `?` query string is appended: the path is unchanged. -/
theorem request_params_null_filtering (path : String)
    (ps : List (String × Option String)) :
    buildPath path (some ps) = buildPath path (some (ps.filter fun kv => kv.2.isSome)) ∧
    (filterNone ps = [] → buildPath path (some ps) = path) := by
  constructor
  · cases hE : ps.isEmpty
    · cases hE2 : (ps.filter fun kv => kv.2.isSome).isEmpty
      · have hq : filterNone (ps.filter fun kv => kv.2.isSome) = filterNone ps :=
          filterNone_filter ps
        simp only [buildPath, hE, hE2, hq, Bool.false_eq_true, if_false]
      · have h2 : (ps.filter fun kv => kv.2.isSome) = [] :=
          List.isEmpty_iff.mp hE2
        have hq : filterNone ps = [] := by
          rw [← filterNone_filter ps, h2]
          rfl
        simp only [buildPath, hE, hE2, hq, urlencode_nil, Bool.false_eq_true,
          if_false, if_true]
        rw [if_pos (by decide : ("".isEmpty = true))]
    · have h1 : ps = [] := List.isEmpty_iff.mp hE
      subst h1
      rfl
  · intro h
    cases hE : ps.isEmpty
    · simp only [buildPath, hE, h, urlencode_nil, Bool.false_eq_true, if_false]
      rw [if_pos (by decide : ("".isEmpty = true))]
    · have h1 : ps = [] := List.isEmpty_iff.mp hE
      subst h1
      rfl

/-- Witness for C3: an all-null params dict leaves the path untouched. -/
theorem request_params_null_filtering_witness :
    filterNone [("sendUpdates", (none : Option String))] = [] ∧
    buildPath "/calendars/primary/events" (some [("sendUpdates", none)])
      = "/calendars/primary/events" :=
  ⟨rfl,
   (request_params_null_filtering "/calendars/primary/events"
      [("sendUpdates", none)]).2 rfl⟩

/-- C4: every `GCalResult` built by `_request` satisfies the invariant:
success implies the error field is absent, failure implies the data field is
absent and the error field carries a message. -/
theorem gcal_result_invariant (method : HttpMethod) (path : String)
    (params : Option (List (String × Option String))) (body : Option JsonVal)
    (response : DispatchResponse) :
    (((_request method path params body response).2).success = true →
      ((_request method path params body response).2).error = none) ∧
    (((_request method path params body response).2).success = false →
      ((_request method path params body response).2).data = none ∧
      ∃ msg, ((_request method path params body response).2).error = some msg) := by
  cases h : response.success
  · constructor
    · intro hs
      simp [_request, h] at hs
    · intro _
      cases he : response.error <;> simp [_request, h, he]
  · constructor
    · intro _
      simp [_request, h]
    · intro hs
      simp [_request, h] at hs

/-- Witness for C4 at concrete responses. -/
theorem gcal_result_invariant_witness :
    ((_request HttpMethod.GET "/colors" none none sampleOk).2).error = none ∧
    ((_request HttpMethod.GET "/colors" none none sampleFailNoErr).2).data = none :=
  ⟨(gcal_result_invariant HttpMethod.GET "/colors" none none sampleOk).1 rfl,
   ((gcal_result_invariant HttpMethod.GET "/colors" none none sampleFailNoErr).2 rfl).1⟩

/-- C5: the `maxResults` query value sent by the three list-style operations
is the input clamped to `[1, 2500]`: 0 is sent as 1, 5000 as 2500, 100
unchanged; the clamp always lands in the inclusive range. -/
theorem max_results_clamped (time_min time_max : Option String) (max_results : Int)
    (single_events : Bool) (order_by query : String) :
    lookupKey "maxResults"
        (gcal_list_events_params time_min time_max max_results single_events order_by)
      = some (some (toString (clampMaxResults max_results))) ∧
    lookupKey "maxResults"
        (gcal_search_events_params query time_min time_max max_results)
      = some (some (toString (clampMaxResults max_results))) ∧
    lookupKey "maxResults"
        (gcal_get_event_instances_params time_min time_max max_results)
      = some (some (toString (clampMaxResults max_results))) ∧
    clampMaxResults 0 = 1 ∧ clampMaxResults 5000 = 2500 ∧ clampMaxResults 100 = 100 ∧
    (∀ n : Int, 1 ≤ clampMaxResults n ∧ clampMaxResults n ≤ 2500) ∧
    lookupKey "maxResults" (gcal_list_events_params none none 0 true "startTime")
      = some (some "1") ∧
    lookupKey "maxResults" (gcal_search_events_params "q" none none 5000)
      = some (some "2500") ∧
    lookupKey "maxResults" (gcal_get_event_instances_params none none 100)
      = some (some "100") :=
  ⟨rfl, rfl, rfl, by decide, by decide, by decide,
   fun n => ⟨le_max_left 1 (min 2500 n),
             max_le (by norm_num) (min_le_left 2500 n)⟩,
   by decide, by decide, by decide⟩

/-- C6: boolean query flags are serialized as the lowercase strings
`"true"`/`"false"`: `str(b).lower()` itself, `singleEvents` in
`gcal_list_events` and `gcal_events_watch`, `supportsAttachments` in
`gcal_create_event` and `gcal_import_event`. -/
theorem bool_flags_lowercase :
    (∀ b, pyLower (pyStr b) = if b then "true" else "false") ∧
    (∀ time_min time_max max_results single_events order_by,
      lookupKey "singleEvents"
          (gcal_list_events_params time_min time_max max_results single_events order_by)
        = some (some (if single_events then "true" else "false"))) ∧
    (∀ send_updates b,
      lookupKey "supportsAttachments" (gcal_create_event_params send_updates (some b))
        = some (some (if b then "true" else "false"))) ∧
    (∀ b, lookupKey "supportsAttachments" (gcal_import_event_params (some b))
        = some (some (if b then "true" else "false"))) ∧
    (∀ time_min time_max b,
      lookupKey "singleEvents" (gcal_events_watch_params time_min time_max (some b))
        = some (some (if b then "true" else "false"))) := by
  refine ⟨?_, ?_, ?_, ?_, ?_⟩
  · intro b
    cases b <;> rfl
  · intro tm tx mr se ob
    cases se <;> rfl
  · intro su b
    cases su <;> cases b <;> rfl
  · intro b
    cases b <;> rfl
  · intro tm tx b
    cases tm <;> cases tx <;> cases b <;> rfl

/-- C7: `gcal_list_events` on calendar `primary` with
`time_min=2025-01-01T00:00:00Z`, `max_results=10`, `single_events=True`,
`order_by=startTime` issues a GET against `/calendars/primary/events` whose
query parameters are exactly `maxResults=10`, `singleEvents=true`,
`timeMin=2025-01-01T00:00:00Z`, `orderBy=startTime` (stated both as the
encoded path and as a permutation of the parameter dict). -/
theorem list_events_end_to_end :
    (gcal_list_events_request "primary" (some "2025-01-01T00:00:00Z") none 10 true
        "startTime").method = HttpMethod.GET ∧
    (gcal_list_events_request "primary" (some "2025-01-01T00:00:00Z") none 10 true
        "startTime").path
      = "/calendars/primary/events?maxResults=10&singleEvents=true&timeMin=2025-01-01T00%3A00%3A00Z&orderBy=startTime" ∧
    (gcal_list_events_request "primary" (some "2025-01-01T00:00:00Z") none 10 true
        "startTime").body = none ∧
    (gcal_list_events_params (some "2025-01-01T00:00:00Z") none 10 true
        "startTime").Perm
      [("maxResults", some "10"), ("singleEvents", some "true"),
       ("timeMin", some "2025-01-01T00:00:00Z"), ("orderBy", some "startTime")] :=
  ⟨rfl, by decide, rfl, by decide⟩

/-- C8: optional parameters that are absent are never included as keys, for
every embedded operation with optionals: `gcal_create_event` with
`send_updates=None` has no `sendUpdates` key (and with both optionals absent
an empty dict, so the path carries no query string);
`supports_attachments=None` contributes no key to `gcal_create_event` or
`gcal_import_event`; the optional `gcal_create_calendar` body fields are
omitted when `None`; the three `gcal_events_watch` optionals and
`gcal_get_freebusy`'s `timeZone` are omitted when absent; and the three
list-style operations omit `timeMin`/`timeMax` when absent. -/
theorem absent_optionals_omitted :
    (∀ supports_attachments,
      lookupKey "sendUpdates" (gcal_create_event_params none supports_attachments)
        = none) ∧
    gcal_create_event_params none none = [] ∧
    (∀ calendar_id event,
      (gcal_create_event_request calendar_id event none none).path
        = "/calendars/" ++ calendar_id ++ "/events") ∧
    (∀ send_updates,
      lookupKey "supportsAttachments" (gcal_create_event_params send_updates none)
        = none) ∧
    (∀ summary, gcal_create_calendar_body summary none none none
        = [("summary", JsonVal.str summary)]) ∧
    (∀ summary time_zone location,
      lookupKey "description" (gcal_create_calendar_body summary none time_zone location)
        = none) ∧
    (∀ summary description location,
      lookupKey "timeZone" (gcal_create_calendar_body summary description none location)
        = none) ∧
    (∀ summary description time_zone,
      lookupKey "location" (gcal_create_calendar_body summary description time_zone none)
        = none) ∧
    gcal_import_event_params none = [] ∧
    (∀ time_max single_events,
      lookupKey "timeMin" (gcal_events_watch_params none time_max single_events)
        = none) ∧
    (∀ time_min single_events,
      lookupKey "timeMax" (gcal_events_watch_params time_min none single_events)
        = none) ∧
    (∀ time_min time_max,
      lookupKey "singleEvents" (gcal_events_watch_params time_min time_max none)
        = none) ∧
    gcal_events_watch_params none none none = [] ∧
    (∀ time_min time_max calendar_ids,
      lookupKey "timeZone" (gcal_get_freebusy_body time_min time_max calendar_ids none)
        = none) ∧
    (∀ time_max max_results single_events order_by,
      lookupKey "timeMin"
          (gcal_list_events_params none time_max max_results single_events order_by)
        = none) ∧
    (∀ time_min max_results single_events order_by,
      lookupKey "timeMax"
          (gcal_list_events_params time_min none max_results single_events order_by)
        = none) ∧
    (∀ query time_max max_results,
      lookupKey "timeMin" (gcal_search_events_params query none time_max max_results)
        = none) ∧
    (∀ query time_min max_results,
      lookupKey "timeMax" (gcal_search_events_params query time_min none max_results)
        = none) ∧
    (∀ time_max max_results,
      lookupKey "timeMin" (gcal_get_event_instances_params none time_max max_results)
        = none) ∧
    (∀ time_min max_results,
      lookupKey "timeMax" (gcal_get_event_instances_params time_min none max_results)
        = none) := by
  refine ⟨?_, rfl, ?_, ?_, ?_, ?_, ?_, ?_, rfl, ?_, ?_, ?_, rfl, ?_, ?_, ?_, ?_, ?_,
    ?_, ?_⟩
  · intro sa
    cases sa <;> rfl
  · intro cal ev
    rfl
  · intro su
    cases su <;> rfl
  · intro s
    rfl
  · intro s tz loc
    cases tz <;> cases loc <;> rfl
  · intro s d loc
    cases d <;> cases loc <;> rfl
  · intro s d tz
    cases d <;> cases tz <;> rfl
  · intro tx se
    cases tx <;> cases se <;> rfl
  · intro tm se
    cases tm <;> cases se <;> rfl
  · intro tm tx
    cases tm <;> cases tx <;> rfl
  · intro tmin tmax ids
    rfl
  · intro tx mr se ob
    cases h2 : pyTruthyStr tx <;> cases se <;>
      simp [gcal_list_events_params, h2, lookupKey]
  · intro tm mr se ob
    cases h1 : pyTruthyStr tm <;> cases se <;>
      simp [gcal_list_events_params, h1, lookupKey]
  · intro q tx mr
    cases h2 : pyTruthyStr tx <;>
      simp [gcal_search_events_params, h2, lookupKey]
  · intro q tm mr
    cases h1 : pyTruthyStr tm <;>
      simp [gcal_search_events_params, h1, lookupKey]
  · intro tx mr
    cases h2 : pyTruthyStr tx <;>
      simp [gcal_get_event_instances_params, h2, lookupKey]
  · intro tm mr
    cases h1 : pyTruthyStr tm <;>
      simp [gcal_get_event_instances_params, h1, lookupKey]

/-- C9: `gcal_get_freebusy` POSTs to `/freeBusy`; with `calendar_ids`
unsupplied the body's `items` is exactly `[{"id": "primary"}]` while the
supplied bounds appear as `timeMin`/`timeMax`; with `calendar_ids` supplied,
`items` has one `{"id": cal_id}` record per id, in order. -/
theorem freebusy_body_items (time_min time_max : String) (time_zone : Option String) :
    (gcal_get_freebusy_request time_min time_max none time_zone).method
      = HttpMethod.POST ∧
    (gcal_get_freebusy_request time_min time_max none time_zone).path = "/freeBusy" ∧
    lookupKey "items" (gcal_get_freebusy_body time_min time_max none time_zone)
      = some (JsonVal.arr [JsonVal.obj [("id", JsonVal.str "primary")]]) ∧
    lookupKey "timeMin" (gcal_get_freebusy_body time_min time_max none time_zone)
      = some (JsonVal.str time_min) ∧
    lookupKey "timeMax" (gcal_get_freebusy_body time_min time_max none time_zone)
      = some (JsonVal.str time_max) ∧
    (∀ calendar_ids,
      lookupKey "items"
          (gcal_get_freebusy_body time_min time_max (some calendar_ids) time_zone)
        = some (JsonVal.arr (calendar_ids.map fun cal_id =>
            JsonVal.obj [("id", JsonVal.str cal_id)]))) :=
  ⟨rfl, rfl, rfl, rfl, rfl, fun _ => rfl⟩

/-- C10: in `gcal_list_events` the `orderBy` parameter is present exactly
when `single_events` is true: with `single_events=False` the `order_by`
argument is silently dropped, with `single_events=True` it is sent
verbatim. -/
theorem order_by_iff_single_events (time_min time_max : Option String)
    (max_results : Int) (single_events : Bool) (order_by : String) :
    lookupKey "orderBy"
        (gcal_list_events_params time_min time_max max_results single_events order_by)
      = if single_events then some (some order_by) else none := by
  cases h1 : pyTruthyStr time_min <;> cases h2 : pyTruthyStr time_max <;>
    cases single_events <;>
      simp [gcal_list_events_params, h1, h2, lookupKey]
